import Mathlib

/-!
Verification development for the SahayAI repository (two Python services):
`scripts/unified_api.py` (grievance classification / spam detection API) and
`scripts/main.py` (spam predict + PDF question-answering with sessions).

Shallow embedding conventions:
* Python floats are modelled as rationals (`ℚ`); no float rounding is relevant
  to the properties below (values are only moved, compared and selected).
* Trained model artifacts are opaque predictors, modelled as Lean functions
  wrapped in structures.  `hasattr(m, 'predict_proba')` is modelled by an
  `Option`-valued `predict_proba` field.
* `predict_proba(X)` on the single-row input used by the code returns a 2-D
  array with one row; we model the function as returning that single row
  directly (`List ℚ`).  Likewise `label_encoder.inverse_transform([i])[0]`
  is modelled as `inverse_transform : Nat → String`.
* Python `s.strip()` is `pyStrip`, `s.lower()` is `pyLower` (character-wise,
  structurally recursive so the kernel can evaluate them), `len(s)` is
  `String.length`, `s[:n]` is `String.take s n`, `s.endswith(t)` is
  `pyEndsWith`.
* `raise HTTPException(status_code, detail)` / FastAPI error flow is modelled
  with `Except HTTPException`.
* The module-level globals of `unified_api.py` (the four model handles) are an
  explicit `ModelsState` record threaded through the operations.
-/

/-- `fastapi.HTTPException`: a status code plus a human-readable detail. -/
structure HTTPException where
  status_code : Nat
  detail : String
deriving DecidableEq, Repr

/-- The TF-IDF vectorizer artifact (`vectorizer.pkl`): `transform` maps text
to a feature vector. -/
structure Vectorizer where
  transform : String → List ℚ

/-- The grievance classifier artifact.  `predict_proba` is `some` exactly when
`hasattr(grievance_classifier, 'predict_proba')` holds; `predict` is the
hard-label prediction (a numeric class index). -/
structure Classifier where
  predict_proba : Option (List ℚ → List ℚ)
  predict : List ℚ → Nat

/-- The label encoder artifact (`label_encoder.pkl`): decodes a numeric class
index to a category name. -/
structure LabelEncoder where
  inverse_transform : Nat → String

/-- The spam detection artifact (`model.pkl`), a text pipeline: it is applied
directly to the raw text.  `predict` already includes the `bool(...)` cast the
code applies to `predict(...)[0]`. -/
structure SpamModel where
  predict_proba : Option (String → List ℚ)
  predict : String → Bool

/-- The four module-level globals of `unified_api.py`
(`grievance_classifier`, `vectorizer`, `label_encoder`,
`spam_detection_model`), each `none` until loaded. -/
structure ModelsState where
  grievance_classifier : Option Classifier
  vectorizer : Option Vectorizer
  label_encoder : Option LabelEncoder
  spam_detection_model : Option SpamModel

/-- The initial state of the globals (lines 64-67: all `None`). -/
def initialState : ModelsState :=
  { grievance_classifier := none, vectorizer := none,
    label_encoder := none, spam_detection_model := none }

/-- `np.argmax` on a list: index of the first occurrence of the maximum
(auxiliary loop: `i` is the index of the next element, `best`/`bestv` the
current winner). -/
def argmaxAux : List ℚ → Nat → Nat → ℚ → Nat
  | [], _, best, _ => best
  | x :: xs, i, best, bestv =>
      if bestv < x then argmaxAux xs (i + 1) i x else argmaxAux xs (i + 1) best bestv

/-- `np.argmax` over the probability row (the code never applies it to an
empty row; we return 0 there). -/
def argmax : List ℚ → Nat
  | [] => 0
  | x :: xs => argmaxAux xs 1 0 x

/-- Python `str.strip()`: the string with leading and trailing whitespace
removed (written character-wise by structural recursion, so that it computes
inside the kernel; `String.trim` agrees but is opaque to `decide`). -/
def pyStrip (s : String) : String :=
  String.mk (((s.data.dropWhile Char.isWhitespace).reverse.dropWhile Char.isWhitespace).reverse)

/-- Python `str.lower()` on the character level (Lean's `Char.toLower`, which
lowers the ASCII range, pointwise over the characters). -/
def pyLower (s : String) : String :=
  String.mk (s.data.map Char.toLower)

/-- Python `s.endswith(suffix)` on the character level (structurally
recursive, so the kernel can evaluate it; `String.endsWith` agrees but is
opaque to `decide`). -/
def pyEndsWith (s suffix : String) : Bool :=
  suffix.data.isSuffixOf s.data

/-- Response model `GrievanceClassificationResponse`. -/
structure GrievanceClassificationResponse where
  grievance_category : String
  confidence_score : Option ℚ
deriving DecidableEq, Repr

/-- Response model `SpamDetectionResponse`. -/
structure SpamDetectionResponse where
  is_spam : Bool
  confidence_score : Option ℚ
deriving DecidableEq, Repr

/-- Response model `CombinedAnalysisResponse`. -/
structure CombinedAnalysisResponse where
  grievance_category : String
  is_spam : Bool
  category_confidence : Option ℚ
  spam_confidence : Option ℚ
deriving DecidableEq, Repr

/-- The availability test of the grievance-classification subsystem, as
written at lines 179 and 288 of `unified_api.py`:
`grievance_classifier is None or vectorizer is None or label_encoder is None`. -/
def grievanceMissing (st : ModelsState) : Bool :=
  st.grievance_classifier.isNone || st.vectorizer.isNone || st.label_encoder.isNone

/-- `POST /classify` handler `classify_grievance` (lines 169-223).
Order of checks is as in the code: model availability (503) first, then input
validation (400), then the `predict_proba` capability dispatch. -/
def classify_grievance (st : ModelsState) (description : String) :
    Except HTTPException GrievanceClassificationResponse :=
  match st.grievance_classifier, st.vectorizer, st.label_encoder with
  | some clf, some vec, some enc =>
    if description = "" ∨ (pyStrip description).length < 5 then
      .error { status_code := 400,
               detail := "Invalid grievance description. Please provide a more detailed text." }
    else
      let description_cleaned := pyLower description
      let description_vectorized := vec.transform description_cleaned
      match clf.predict_proba with
      | some pp =>
        let probabilities := pp description_vectorized
        let prediction_idx := argmax probabilities
        let confidence := probabilities.getD prediction_idx 0
        let category_prediction := enc.inverse_transform prediction_idx
        .ok { grievance_category := category_prediction,
              confidence_score := some confidence }
      | none =>
        let numeric_prediction := clf.predict description_vectorized
        let category_prediction := enc.inverse_transform numeric_prediction
        .ok { grievance_category := category_prediction, confidence_score := none }
  | _, _, _ =>
    .error { status_code := 503,
             detail := "Grievance classification service unavailable - models not loaded. Check API logs." }

/-- `POST /spam-detect` handler `detect_spam` (lines 226-272).  Note the model
is applied to the raw, un-normalized `description`. -/
def detect_spam (st : ModelsState) (description : String) :
    Except HTTPException SpamDetectionResponse :=
  match st.spam_detection_model with
  | some m =>
    if description = "" ∨ (pyStrip description).length < 5 then
      .error { status_code := 400,
               detail := "Invalid text for spam detection. Please provide a more detailed text." }
    else
      match m.predict_proba with
      | some pp =>
        let probabilities := pp description
        .ok { is_spam := decide (argmax probabilities ≠ 0),
              confidence_score := some (probabilities.getD (argmax probabilities) 0) }
      | none =>
        .ok { is_spam := m.predict description, confidence_score := none }
  | none =>
    .error { status_code := 503,
             detail := "Spam detection service unavailable - model not loaded. Check API logs." }

/-- `POST /analyze` handler `analyze_grievance` (lines 275-323).  It first
collects the list of unavailable subsystems (before any input validation),
fails with one 503 naming all of them if the list is non-empty, then validates
the input, then delegates to the two single-purpose handlers and merges. -/
def analyze_grievance (st : ModelsState) (description : String) :
    Except HTTPException CombinedAnalysisResponse :=
  let models_missing : List String :=
    (if grievanceMissing st then ["grievance classification"] else []) ++
    (if st.spam_detection_model.isNone then ["spam detection"] else [])
  if models_missing ≠ [] then
    .error { status_code := 503,
             detail := "The following services are unavailable: " ++
               String.intercalate ", " models_missing }
  else if description = "" ∨ (pyStrip description).length < 5 then
    .error { status_code := 400,
             detail := "Invalid grievance description. Please provide a more detailed text." }
  else do
    let classification_result ← classify_grievance st description
    let spam_result ← detect_spam st description
    .ok { grievance_category := classification_result.grievance_category,
          is_spam := spam_result.is_spam,
          category_confidence := classification_result.confidence_score,
          spam_confidence := spam_result.confidence_score }

/-- The artifact files `load_models` (lines 69-121) looks for on disk, each
`none` when the file does not exist and `some contents` when it does. -/
structure FileSystem where
  grievance_classifier_pkl : Option Classifier
  grievance_classifier_json : Option Classifier
  vectorizer_pkl : Option Vectorizer
  label_encoder_pkl : Option LabelEncoder
  model_pkl : Option SpamModel

/-- `load_models` (lines 69-121).  The whole body is one `try` block: each
artifact is assigned to its global as soon as it loads, and a missing file
raises `FileNotFoundError`, which the single `except` catches, returning
`False` and leaving all later globals untouched.  The result is the final
state of the four globals plus the returned boolean. -/
def load_models (fs : FileSystem) (st : ModelsState) : ModelsState × Bool :=
  let clf? : Option Classifier :=
    match fs.grievance_classifier_pkl, fs.grievance_classifier_json with
    | some c, _ => some c
    | none, some c => some c
    | none, none => none
  match clf? with
  | none => (st, false)
  | some c =>
    let st1 := { st with grievance_classifier := some c }
    match fs.vectorizer_pkl with
    | none => (st1, false)
    | some v =>
      let st2 := { st1 with vectorizer := some v }
      match fs.label_encoder_pkl with
      | none => (st2, false)
      | some le =>
        let st3 := { st2 with label_encoder := some le }
        match fs.model_pkl with
        | none => (st3, false)
        | some sm => ({ st3 with spam_detection_model := some sm }, true)

/-!
Embedding of `scripts/main.py`: the spam `/predict` endpoint, the PDF session
store `pdf_sessions`, `/init_rag` and `/ask_question`.

* `pdf_sessions` (a Python dict from session id to extracted text) is an
  association list with first-match lookup; `pdf_sessions[k] = v` is a cons,
  which is observationally the dict assignment (lookup of `k` yields `v`,
  lookup of any other key is unchanged).
* `str(uuid.uuid4())` is external randomness: the generated identifier is a
  parameter of `init_rag`, and its freshness (not already a key) is a
  hypothesis where needed.
* PDF parsing is external: `init_rag` receives the list of per-page texts
  produced by `page.extract_text()`.
* The Gemini backend is external: a record holding the configured key string
  and a `generate_content` function that either returns the answer text or
  fails with a message (the Python exception's string).
-/

/-- The `pdf_sessions` dict: session id to stored document text. -/
def SessionMap := List (String × String)

/-- Dict membership / indexing: first binding for the key, if any. -/
def lookupSession : SessionMap → String → Option String
  | [], _ => none
  | (k, v) :: rest, key => if key = k then some v else lookupSession rest key

/-- Dict assignment `pdf_sessions[k] = v` (shadowing cons; observationally the
same as in-place update under `lookupSession`). -/
def insertSession (m : SessionMap) (k v : String) : SessionMap :=
  (k, v) :: m

/-- Lines 73-75 of `main.py`: `text_content = ""` then, for every page,
`text_content += page.extract_text() + "\n"`. -/
def extractText (pages : List String) : String :=
  pages.foldl (fun acc p => acc ++ p ++ "\n") ""

/-- The JSON body returned by `/init_rag` on success. -/
structure InitRagResult where
  message : String
  pages : Nat
  session_id : String
deriving DecidableEq, Repr

/-- `POST /init_rag` handler `init_rag` (lines 59-90).  `pages` is the list of
per-page extracted texts; `session_id` is the value of `str(uuid.uuid4())`.
Returns the updated session map together with the response body. -/
def init_rag (sessions : SessionMap) (filename : String) (pages : List String)
    (session_id : String) : Except HTTPException (SessionMap × InitRagResult) :=
  if ¬ pyEndsWith filename ".pdf" then
    .error { status_code := 400, detail := "Only PDF files are allowed" }
  else
    let text_content := extractText pages
    .ok (insertSession sessions session_id text_content,
         { message := "PDF processed successfully",
           pages := pages.length, session_id := session_id })

/-- The Gemini backend as seen by `ask_question`: the key resolved at startup
(`GEMINI_API_KEY`, defaulting to the sentinel `"your_api_key_here"`), and the
`generate_content` call, which returns the answer text or fails with the
exception's message. -/
structure Backend where
  gemini_api_key : String
  generate_content : String → Except String String

/-- The f-string prompt of lines 114-123, with the stored text truncated to
its first 10000 characters (`pdf_content[:10000]`).  The trailing
`# Limit to ...` text sits inside the f-string in the source, so it is part
of the prompt. -/
def buildPrompt (pdf_content query : String) : String :=
  "\n        Based on the following PDF content, please answer the question accurately and concisely.\n        \n        PDF Content:\n        "
  ++ pdf_content.take 10000
  ++ "  # Limit to first 10k characters to avoid token limits\n        \n        Question: "
  ++ query
  ++ "\n        \n        Please provide a clear and helpful answer based only on the information in the PDF.\n        "

/-- `POST /ask_question` handler `ask_question` (lines 92-131).  Checks, in
order: unknown session (400), empty stored text (400), unconfigured key (503);
then builds the prompt and wraps any backend failure as a 500 with the
backend's message. -/
def ask_question (sessions : SessionMap) (backend : Backend)
    (session_id query : String) : Except HTTPException String :=
  match lookupSession sessions session_id with
  | none =>
    .error { status_code := 400, detail := "Invalid session ID. Please upload a PDF first." }
  | some pdf_content =>
    if pdf_content = "" then
      .error { status_code := 400, detail := "No PDF content found for this session." }
    else if backend.gemini_api_key = "your_api_key_here" then
      .error { status_code := 503,
               detail := "Gemini API key not configured. Please set GEMINI_API_KEY environment variable." }
    else
      match backend.generate_content (buildPrompt pdf_content query) with
      | .ok text => .ok text
      | .error e => .error { status_code := 500, detail := "Error generating answer: " ++ e }

/-- `POST /predict` handler `predict` (lines 50-57) of `main.py`: applies the
spam model to the raw description.  It reads no mutable state and never
touches `pdf_sessions`. -/
def predict (model : SpamModel) (description : String) : Bool :=
  model.predict description

/-!
Concrete fixture predictors used by witnesses and counterexamples.
-/

/-- A hard-label grievance classifier (no `predict_proba`). -/
def dummyClassifier : Classifier :=
  { predict_proba := none, predict := fun _ => 0 }

/-- A probabilistic grievance classifier with a fixed two-class distribution. -/
def probaClassifier : Classifier :=
  { predict_proba := some (fun _ => [1/2, 1/4]), predict := fun _ => 0 }

/-- A vectorizer producing an empty feature vector. -/
def dummyVectorizer : Vectorizer := { transform := fun _ => [] }

/-- A label decoder with two category names. -/
def dummyEncoder : LabelEncoder :=
  { inverse_transform := fun n => if n = 0 then "Utilities" else "Other" }

/-- A hard-label spam model that never flags spam. -/
def dummySpam : SpamModel := { predict_proba := none, predict := fun _ => false }

/-- All four globals loaded with the hard-label fixtures. -/
def fullState : ModelsState :=
  { grievance_classifier := some dummyClassifier, vectorizer := some dummyVectorizer,
    label_encoder := some dummyEncoder, spam_detection_model := some dummySpam }

/-- C1 counterexample: with no models loaded (the startup state) and the
short input `"hi"` (trimmed length 2 < 5), all three operations fail with
status 503 (ServiceUnavailable), not 400 (InvalidInput): availability is
checked before input validation, so the claimed "InvalidInput regardless of
model-load state" is false. -/
theorem C1_counterexample :
    (pyStrip "hi").length < 5 ∧
    classify_grievance initialState "hi" =
      .error { status_code := 503,
                detail := "Grievance classification service unavailable - models not loaded. Check API logs." } ∧
    detect_spam initialState "hi" =
      .error { status_code := 503,
                detail := "Spam detection service unavailable - model not loaded. Check API logs." } ∧
    analyze_grievance initialState "hi" =
      .error { status_code := 503,
                detail := "The following services are unavailable: grievance classification, spam detection" } :=
  ⟨by decide, rfl, rfl, rfl⟩

/-- C1 (amended): for every text whose trimmed length is < 5, each of
`classify_grievance`, `detect_spam` and `analyze_grievance` fails with
InvalidInput (status 400) **provided its models are loaded**; when a required
model is not loaded the failure is ServiceUnavailable (503) instead, because
each handler checks availability before validating the input. -/
theorem C1_amended (gc : Classifier) (vec : Vectorizer) (enc : LabelEncoder)
    (sm : SpamModel) (st : ModelsState) (t : String)
    (hshort : (pyStrip t).length < 5)
    (h1 : st.grievance_classifier = some gc) (h2 : st.vectorizer = some vec)
    (h3 : st.label_encoder = some enc) (h4 : st.spam_detection_model = some sm) :
    classify_grievance st t =
      .error { status_code := 400,
                detail := "Invalid grievance description. Please provide a more detailed text." } ∧
    detect_spam st t =
      .error { status_code := 400,
                detail := "Invalid text for spam detection. Please provide a more detailed text." } ∧
    analyze_grievance st t =
      .error { status_code := 400,
                detail := "Invalid grievance description. Please provide a more detailed text." } := by
  refine ⟨?_, ?_, ?_⟩
  · simp only [classify_grievance, h1, h2, h3]
    rw [if_pos (Or.inr hshort)]
  · simp only [detect_spam, h4]
    rw [if_pos (Or.inr hshort)]
  · simp only [analyze_grievance, grievanceMissing, h1, h2, h3, h4, Option.isNone_some]
    rw [if_neg (by simp)]
    rw [if_pos (Or.inr hshort)]

/-- C1 witness: the amended theorem applied at the fixture state with all
models loaded and the concrete short input `"hi"`. -/
theorem C1_witness :
    classify_grievance fullState "hi" =
      .error { status_code := 400,
                detail := "Invalid grievance description. Please provide a more detailed text." } ∧
    detect_spam fullState "hi" =
      .error { status_code := 400,
                detail := "Invalid text for spam detection. Please provide a more detailed text." } ∧
    analyze_grievance fullState "hi" =
      .error { status_code := 400,
                detail := "Invalid grievance description. Please provide a more detailed text." } :=
  C1_amended dummyClassifier dummyVectorizer dummyEncoder dummySpam fullState "hi"
    (by decide) rfl rfl rfl rfl

/-- The on-disk state of the spec's cross-subsystem scenario: grievance
classifier present, vectorizer missing, label encoder and spam model present. -/
def fsVectorizerMissing : FileSystem :=
  { grievance_classifier_pkl := some dummyClassifier, grievance_classifier_json := none,
    vectorizer_pkl := none, label_encoder_pkl := some dummyEncoder,
    model_pkl := some dummySpam }

/-- Helper: `detect_spam` fails with the 503 ServiceUnavailable error whenever
the spam model global is unset. -/
lemma detect_spam_unavailable (st : ModelsState) (t : String)
    (h : st.spam_detection_model = none) :
    detect_spam st t =
      .error { status_code := 503,
               detail := "Spam detection service unavailable - model not loaded. Check API logs." } := by
  simp only [detect_spam, h]

/-- C2 counterexample: with the vectorizer file missing but the spam artifact
`model.pkl` present on disk, `load_models` (one `try` block) aborts before
reaching the spam artifact, so the spam model is **not** installed and
`detect_spam` on a valid text fails with 503 — refuting the claimed
per-subsystem independence of artifact loading. -/
theorem C2_counterexample :
    fsVectorizerMissing.model_pkl.isSome = true ∧
    (load_models fsVectorizerMissing initialState).1.spam_detection_model = none ∧
    detect_spam (load_models fsVectorizerMissing initialState).1
        "This grievance text is long enough" =
      .error { status_code := 503,
               detail := "Spam detection service unavailable - model not loaded. Check API logs." } :=
  ⟨rfl, rfl, rfl⟩

/-- C2 (amended): artifact loading is sequential within a single `try` block
and aborts at the first missing grievance artifact (classifier, vectorizer or
label encoder): starting from the unloaded startup state, the spam model is
left uninstalled (even when `model.pkl` is present), `load_models` reports
failure, and `detect_spam` afterwards fails with ServiceUnavailable on every
text. -/
theorem C2_amended (fs : FileSystem)
    (h : (fs.grievance_classifier_pkl = none ∧ fs.grievance_classifier_json = none)
        ∨ fs.vectorizer_pkl = none ∨ fs.label_encoder_pkl = none) :
    (load_models fs initialState).1.spam_detection_model = none ∧
    (load_models fs initialState).2 = false ∧
    ∀ t, detect_spam (load_models fs initialState).1 t =
      .error { status_code := 503,
               detail := "Spam detection service unavailable - model not loaded. Check API logs." } := by
  have key : (load_models fs initialState).1.spam_detection_model = none ∧
      (load_models fs initialState).2 = false := by
    unfold load_models
    rcases h with ⟨h1, h2⟩ | hv | hl
    · simp [h1, h2, initialState]
    · rcases hg : fs.grievance_classifier_pkl with _ | c <;>
        rcases hj : fs.grievance_classifier_json with _ | c₂ <;>
        simp [hv, initialState]
    · rcases hg : fs.grievance_classifier_pkl with _ | c <;>
        rcases hj : fs.grievance_classifier_json with _ | c₂ <;>
        rcases hv : fs.vectorizer_pkl with _ | v <;>
        simp [hl, initialState]
  exact ⟨key.1, key.2, fun t => detect_spam_unavailable _ t key.1⟩

/-- C2 witness: the amended theorem applied to the concrete scenario file
system and a concrete valid text. -/
theorem C2_witness :
    (load_models fsVectorizerMissing initialState).1.spam_detection_model = none ∧
    (load_models fsVectorizerMissing initialState).2 = false ∧
    detect_spam (load_models fsVectorizerMissing initialState).1
        "Water supply disrupted in my area" =
      .error { status_code := 503,
               detail := "Spam detection service unavailable - model not loaded. Check API logs." } :=
  ⟨(C2_amended fsVectorizerMissing (Or.inr (Or.inl rfl))).1,
   (C2_amended fsVectorizerMissing (Or.inr (Or.inl rfl))).2.1,
   (C2_amended fsVectorizerMissing (Or.inr (Or.inl rfl))).2.2
     "Water supply disrupted in my area"⟩

/-- Helper: whenever some subsystem is unavailable, `analyze_grievance` fails
with the 503 whose detail joins the missing-subsystem list, for every input. -/
lemma analyze_unavailable (st : ModelsState) (t : String)
    (h : grievanceMissing st = true ∨ st.spam_detection_model.isNone = true) :
    analyze_grievance st t =
      .error { status_code := 503,
               detail := "The following services are unavailable: " ++
                 String.intercalate ", "
                   ((if grievanceMissing st then ["grievance classification"] else []) ++
                    (if st.spam_detection_model.isNone then ["spam detection"] else [])) } := by
  simp only [analyze_grievance]
  rw [if_pos]
  rcases h with h | h <;> simp [h]

/-- C3: for every input (validated or not), `analyze_grievance` determines the
set of unavailable subsystems before validating the input and, when that set
is non-empty, fails with one ServiceUnavailable (503) whose detail enumerates
every unavailable subsystem — both names when both are missing, not only the
first. -/
theorem C3_analyze_reports_all_missing (st : ModelsState) (t : String)
    (h : grievanceMissing st = true ∨ st.spam_detection_model.isNone = true) :
    (∃ d, analyze_grievance st t = .error { status_code := 503, detail := d }) ∧
    (grievanceMissing st = true → st.spam_detection_model.isNone = true →
      analyze_grievance st t =
        .error { status_code := 503,
                 detail := "The following services are unavailable: grievance classification, spam detection" }) ∧
    (grievanceMissing st = true → st.spam_detection_model.isNone = false →
      analyze_grievance st t =
        .error { status_code := 503,
                 detail := "The following services are unavailable: grievance classification" }) ∧
    (grievanceMissing st = false → st.spam_detection_model.isNone = true →
      analyze_grievance st t =
        .error { status_code := 503,
                 detail := "The following services are unavailable: spam detection" }) := by
  refine ⟨⟨_, analyze_unavailable st t h⟩, ?_, ?_, ?_⟩
  · intro hg hs
    rw [analyze_unavailable st t h, hg, hs]
    rfl
  · intro hg hs
    rw [analyze_unavailable st t h, hg, hs]
    rfl
  · intro hg hs
    rw [analyze_unavailable st t h, hg, hs]
    rfl

/-- C3 witness: at the startup state (both subsystems missing) and the short
input `"x"` (which would fail validation), the 503 detail names both
subsystems, showing availability is checked before validation. -/
theorem C3_witness :
    analyze_grievance initialState "x" =
      .error { status_code := 503,
               detail := "The following services are unavailable: grievance classification, spam detection" } :=
  (C3_analyze_reports_all_missing initialState "x" (Or.inl rfl)).2.1 rfl rfl

/-- All four globals loaded, with the probabilistic grievance classifier and
the hard-label spam model. -/
def probaState : ModelsState :=
  { grievance_classifier := some probaClassifier, vectorizer := some dummyVectorizer,
    label_encoder := some dummyEncoder, spam_detection_model := some dummySpam }

/-- C4: on valid input, both handlers dispatch on the predictor's
`predict_proba` capability.  With probabilities: the label is the decoder at
the arg-max of the distribution and the confidence is the probability at that
arg-max (for spam, the decode is `bool` of the arg-max index).  Without: the
label is the decoded hard prediction and the confidence is `none`, never a
sentinel zero. -/
theorem C4_capability_dispatch (clf : Classifier) (vec : Vectorizer)
    (enc : LabelEncoder) (sm : SpamModel) (st : ModelsState) (t : String)
    (h1 : st.grievance_classifier = some clf) (h2 : st.vectorizer = some vec)
    (h3 : st.label_encoder = some enc) (h4 : st.spam_detection_model = some sm)
    (hv : ¬(t = "" ∨ (pyStrip t).length < 5)) :
    (∀ pp, clf.predict_proba = some pp →
      classify_grievance st t = .ok
        { grievance_category :=
            enc.inverse_transform (argmax (pp (vec.transform (pyLower t)))),
          confidence_score :=
            some ((pp (vec.transform (pyLower t))).getD
              (argmax (pp (vec.transform (pyLower t)))) 0) }) ∧
    (clf.predict_proba = none →
      classify_grievance st t = .ok
        { grievance_category :=
            enc.inverse_transform (clf.predict (vec.transform (pyLower t))),
          confidence_score := none }) ∧
    (∀ pp, sm.predict_proba = some pp →
      detect_spam st t = .ok
        { is_spam := decide (argmax (pp t) ≠ 0),
          confidence_score := some ((pp t).getD (argmax (pp t)) 0) }) ∧
    (sm.predict_proba = none →
      detect_spam st t = .ok { is_spam := sm.predict t, confidence_score := none }) := by
  refine ⟨?_, ?_, ?_, ?_⟩
  · intro pp hpp
    simp only [classify_grievance, h1, h2, h3]
    rw [if_neg hv]
    simp [hpp]
  · intro hpp
    simp only [classify_grievance, h1, h2, h3]
    rw [if_neg hv]
    simp [hpp]
  · intro pp hpp
    simp only [detect_spam, h4]
    rw [if_neg hv]
    simp [hpp]
  · intro hpp
    simp only [detect_spam, h4]
    rw [if_neg hv]
    simp [hpp]

/-- C4 witness: the dispatch theorem at the concrete loaded state: the
probabilistic classifier yields the decoded arg-max label with its
probability, the hard-label spam model yields `none` confidence. -/
theorem C4_witness :
    classify_grievance probaState "Street lights are broken" =
      .ok { grievance_category := "Utilities", confidence_score := some (1/2) } ∧
    detect_spam probaState "Street lights are broken" =
      .ok { is_spam := false, confidence_score := none } := by
  have h := C4_capability_dispatch probaClassifier dummyVectorizer dummyEncoder
    dummySpam probaState "Street lights are broken" rfl rfl rfl rfl (by decide)
  refine ⟨(h.1 (fun _ => [1/2, 1/4]) rfl).trans ?_, h.2.2.2 rfl⟩
  norm_num [dummyEncoder, argmax, argmaxAux, List.getD]

/-- Helper: with its three artifacts loaded and a valid input,
`classify_grievance` succeeds. -/
lemma classify_grievance_ok (clf : Classifier) (vec : Vectorizer)
    (enc : LabelEncoder) (st : ModelsState) (t : String)
    (h1 : st.grievance_classifier = some clf) (h2 : st.vectorizer = some vec)
    (h3 : st.label_encoder = some enc)
    (hv : ¬(t = "" ∨ (pyStrip t).length < 5)) :
    ∃ c, classify_grievance st t = .ok c := by
  simp only [classify_grievance, h1, h2, h3]
  rw [if_neg hv]
  cases clf.predict_proba <;> exact ⟨_, rfl⟩

/-- Helper: with the spam model loaded and a valid input, `detect_spam`
succeeds. -/
lemma detect_spam_ok (sm : SpamModel) (st : ModelsState) (t : String)
    (h4 : st.spam_detection_model = some sm)
    (hv : ¬(t = "" ∨ (pyStrip t).length < 5)) :
    ∃ s, detect_spam st t = .ok s := by
  simp only [detect_spam, h4]
  rw [if_neg hv]
  cases sm.predict_proba <;> exact ⟨_, rfl⟩

/-- C5: on every valid input with both subsystems available,
`analyze_grievance` returns exactly the merge of the two single-purpose
handlers on the same text: its category/confidence come from
`classify_grievance` and its spam flag/confidence from `detect_spam`. -/
theorem C5_analyze_merges_both (clf : Classifier) (vec : Vectorizer)
    (enc : LabelEncoder) (sm : SpamModel) (st : ModelsState) (t : String)
    (h1 : st.grievance_classifier = some clf) (h2 : st.vectorizer = some vec)
    (h3 : st.label_encoder = some enc) (h4 : st.spam_detection_model = some sm)
    (hv : ¬(t = "" ∨ (pyStrip t).length < 5)) :
    ∃ (c : GrievanceClassificationResponse) (s : SpamDetectionResponse),
      classify_grievance st t = .ok c ∧ detect_spam st t = .ok s ∧
      analyze_grievance st t = .ok
        { grievance_category := c.grievance_category, is_spam := s.is_spam,
          category_confidence := c.confidence_score,
          spam_confidence := s.confidence_score } := by
  obtain ⟨c, hc⟩ := classify_grievance_ok clf vec enc st t h1 h2 h3 hv
  obtain ⟨s, hs⟩ := detect_spam_ok sm st t h4 hv
  refine ⟨c, s, hc, hs, ?_⟩
  simp only [analyze_grievance, grievanceMissing, h1, h2, h3, h4, Option.isNone_some]
  rw [if_neg (by simp), if_neg hv, hc, hs]
  rfl

/-- C5 witness: the merge theorem at the fully loaded fixture state and a
concrete valid text. -/
theorem C5_witness :
    ∃ (c : GrievanceClassificationResponse) (s : SpamDetectionResponse),
      classify_grievance fullState "Garbage not collected for two weeks" = .ok c ∧
      detect_spam fullState "Garbage not collected for two weeks" = .ok s ∧
      analyze_grievance fullState "Garbage not collected for two weeks" = .ok
        { grievance_category := c.grievance_category, is_spam := s.is_spam,
          category_confidence := c.confidence_score,
          spam_confidence := s.confidence_score } :=
  C5_analyze_merges_both dummyClassifier dummyVectorizer dummyEncoder dummySpam
    fullState "Garbage not collected for two weeks" rfl rfl rfl rfl (by decide)

/-- C6: `ask_question` performs its checks in order: unknown session id fails
with SessionNotFound (400 "Invalid session ID..."), then empty stored text
fails with EmptyDocument (400 "No PDF content..."), then a missing backend
credential fails with BackendNotConfigured (503); otherwise the prompt embeds
only the first 10000 characters of the stored text (the prompt is unchanged by
anything beyond them), a backend success is returned verbatim, and a backend
failure becomes GenerationFailed (500) carrying the backend's message. -/
theorem C6_ask_question_check_order (sessions : SessionMap) (backend : Backend)
    (sid query : String) :
    (lookupSession sessions sid = none →
      ask_question sessions backend sid query =
        .error { status_code := 400,
                 detail := "Invalid session ID. Please upload a PDF first." }) ∧
    (∀ content, lookupSession sessions sid = some content →
      (content = "" →
        ask_question sessions backend sid query =
          .error { status_code := 400,
                   detail := "No PDF content found for this session." }) ∧
      (content ≠ "" → backend.gemini_api_key = "your_api_key_here" →
        ask_question sessions backend sid query =
          .error { status_code := 503,
                   detail := "Gemini API key not configured. Please set GEMINI_API_KEY environment variable." }) ∧
      (content ≠ "" → backend.gemini_api_key ≠ "your_api_key_here" →
        (∀ ans, backend.generate_content (buildPrompt content query) = .ok ans →
          ask_question sessions backend sid query = .ok ans) ∧
        (∀ msg, backend.generate_content (buildPrompt content query) = .error msg →
          ask_question sessions backend sid query =
            .error { status_code := 500,
                     detail := "Error generating answer: " ++ msg }))) ∧
    (∀ c₁ c₂ : String, c₁.take 10000 = c₂.take 10000 →
      buildPrompt c₁ query = buildPrompt c₂ query) := by
  refine ⟨?_, ?_, ?_⟩
  · intro h
    simp only [ask_question, h]
  · intro content h
    refine ⟨?_, ?_, ?_⟩
    · intro he
      simp only [ask_question, h]
      rw [if_pos he]
    · intro hne hkey
      simp only [ask_question, h]
      rw [if_neg hne, if_pos hkey]
    · intro hne hkey
      constructor
      · intro ans hans
        simp only [ask_question, h]
        rw [if_neg hne, if_neg hkey, hans]
      · intro msg hmsg
        simp only [ask_question, h]
        rw [if_neg hne, if_neg hkey, hmsg]
  · intro c₁ c₂ htake
    simp only [buildPrompt, htake]

/-- The session map with one demo session. -/
def demoSessions : SessionMap :=
  insertSession [] "sess-1" "Refund policy: 30 days."

/-- A stub backend with a configured key that always answers `"30 days"`. -/
def stubBackend : Backend :=
  { gemini_api_key := "k", generate_content := fun _ => .ok "30 days" }

/-- C6 witness: `ask_question` at the concrete inputs — the unknown id
`"not-a-real-id"` fails with the session error, and a known session with a
configured stub backend returns the backend's answer verbatim. -/
theorem C6_witness :
    ask_question [] stubBackend "not-a-real-id" "any query" =
      .error { status_code := 400,
               detail := "Invalid session ID. Please upload a PDF first." } ∧
    ask_question demoSessions stubBackend "sess-1" "What is the refund window?" =
      .ok "30 days" :=
  ⟨(C6_ask_question_check_order [] stubBackend "not-a-real-id" "any query").1 rfl,
   (((C6_ask_question_check_order demoSessions stubBackend "sess-1"
        "What is the refund window?").2.1 "Refund policy: 30 days." rfl).2.2
      (by decide) (by decide)).1 "30 days" rfl⟩

/-- C7: an upload installs the freshly generated identifier with the
extracted text and leaves every existing session unchanged: under the
freshness of the generated id (the UUID4 collision-freeness assumption),
every id already in the map keeps its exact text, and every id other than the
new one is looked up exactly as before.  (`ask_question` and `predict` read
but never write `pdf_sessions`, which the embedding reflects by their types:
neither returns a session map.) -/
theorem C7_upload_preserves_sessions (sessions : SessionMap) (filename : String)
    (pages : List String) (sid : String)
    (hpdf : pyEndsWith filename ".pdf" = true)
    (hfresh : lookupSession sessions sid = none) :
    ∃ (sessions2 : SessionMap) (res : InitRagResult),
      init_rag sessions filename pages sid = .ok (sessions2, res) ∧
      res.session_id = sid ∧
      lookupSession sessions2 sid = some (extractText pages) ∧
      (∀ id, id ≠ sid → lookupSession sessions2 id = lookupSession sessions id) ∧
      (∀ id v, lookupSession sessions id = some v → lookupSession sessions2 id = some v) := by
  refine ⟨insertSession sessions sid (extractText pages),
    { message := "PDF processed successfully", pages := pages.length, session_id := sid },
    ?_, rfl, ?_, ?_, ?_⟩
  · simp [init_rag, hpdf]
  · simp [lookupSession, insertSession]
  · intro id hid
    simp [lookupSession, insertSession, hid]
  · intro id v hv
    by_cases hid : id = sid
    · subst hid
      rw [hfresh] at hv
      exact absurd hv (by simp)
    · simpa [lookupSession, insertSession, hid] using hv

/-- C7 witness: the preservation theorem at a concrete map with one existing
session, a fresh id and a one-page document. -/
theorem C7_witness :
    pyEndsWith "handbook.pdf" ".pdf" = true ∧
    lookupSession demoSessions "sess-2" = none ∧
    ∃ (sessions2 : SessionMap) (res : InitRagResult),
      init_rag demoSessions "handbook.pdf" ["Shipping takes five days."] "sess-2" =
        .ok (sessions2, res) ∧
      res.session_id = "sess-2" ∧
      lookupSession sessions2 "sess-2" =
        some (extractText ["Shipping takes five days."]) ∧
      (∀ id, id ≠ "sess-2" →
        lookupSession sessions2 id = lookupSession demoSessions id) ∧
      (∀ id v, lookupSession demoSessions id = some v →
        lookupSession sessions2 id = some v) :=
  ⟨by decide, rfl,
   C7_upload_preserves_sessions demoSessions "handbook.pdf"
     ["Shipping takes five days."] "sess-2" (by decide) rfl⟩

/-- Helper: indexing a list of unit-interval entries with default 0 stays in
the unit interval, whatever the index. -/
lemma getD_unit_interval (l : List ℚ) (i : Nat)
    (h : ∀ q ∈ l, 0 ≤ q ∧ q ≤ 1) : 0 ≤ l.getD i 0 ∧ l.getD i 0 ≤ 1 := by
  rcases lt_or_le i l.length with hi | hi
  · rw [List.getD_eq_getElem l 0 hi]
    exact h _ (List.getElem_mem hi)
  · rw [List.getD_eq_default l 0 hi]
    norm_num

/-- Helper: any confidence returned by `classify_grievance` lies in `[0,1]`
when the classifier's probability rows do. -/
lemma classify_confidence_bound (st : ModelsState) (t : String)
    (r : GrievanceClassificationResponse) (c : ℚ)
    (hG : ∀ clf pp, st.grievance_classifier = some clf → clf.predict_proba = some pp →
      ∀ v, ∀ q ∈ pp v, 0 ≤ q ∧ q ≤ 1)
    (hr : classify_grievance st t = .ok r) (hc : r.confidence_score = some c) :
    0 ≤ c ∧ c ≤ 1 := by
  rcases h1 : st.grievance_classifier with _ | clf <;>
    rcases h2 : st.vectorizer with _ | vec <;>
    rcases h3 : st.label_encoder with _ | enc <;>
    simp only [classify_grievance, h1, h2, h3] at hr <;>
    try exact Except.noConfusion hr
  by_cases hv : t = "" ∨ (pyStrip t).length < 5
  · rw [if_pos hv] at hr
    simp at hr
  · rw [if_neg hv] at hr
    rcases hpp : clf.predict_proba with _ | pp <;> simp only [hpp] at hr
    · obtain rfl := (Except.ok.inj hr)
      simp at hc
    · obtain rfl := (Except.ok.inj hr)
      simp only [Option.some.injEq] at hc
      subst hc
      exact getD_unit_interval _ _ (hG clf pp h1 hpp _)

/-- Helper: any confidence returned by `detect_spam` lies in `[0,1]` when the
spam model's probability rows do. -/
lemma spam_confidence_bound (st : ModelsState) (t : String)
    (r : SpamDetectionResponse) (c : ℚ)
    (hS : ∀ sm pp, st.spam_detection_model = some sm → sm.predict_proba = some pp →
      ∀ s, ∀ q ∈ pp s, 0 ≤ q ∧ q ≤ 1)
    (hr : detect_spam st t = .ok r) (hc : r.confidence_score = some c) :
    0 ≤ c ∧ c ≤ 1 := by
  rcases h4 : st.spam_detection_model with _ | sm <;>
    simp only [detect_spam, h4] at hr <;>
    try exact Except.noConfusion hr
  by_cases hv : t = "" ∨ (pyStrip t).length < 5
  · rw [if_pos hv] at hr
    simp at hr
  · rw [if_neg hv] at hr
    rcases hpp : sm.predict_proba with _ | pp <;> simp only [hpp] at hr
    · obtain rfl := (Except.ok.inj hr)
      simp at hc
    · obtain rfl := (Except.ok.inj hr)
      simp only [Option.some.injEq] at hc
      subst hc
      exact getD_unit_interval _ _ (hS sm pp h4 hpp _)

/-- Helper: a successful combined analysis decomposes into successful
classification and spam-detection results whose confidences it copies. -/
lemma analyze_ok_decompose (st : ModelsState) (t : String)
    (r : CombinedAnalysisResponse) (hr : analyze_grievance st t = .ok r) :
    ∃ c s, classify_grievance st t = .ok c ∧ detect_spam st t = .ok s ∧
      r.category_confidence = c.confidence_score ∧
      r.spam_confidence = s.confidence_score := by
  simp only [analyze_grievance] at hr
  by_cases hm : ((if grievanceMissing st then ["grievance classification"] else []) ++
      (if st.spam_detection_model.isNone then ["spam detection"] else [])) ≠ []
  · rw [if_pos hm] at hr
    simp at hr
  · rw [if_neg hm] at hr
    by_cases hv : t = "" ∨ (pyStrip t).length < 5
    · rw [if_pos hv] at hr
      simp at hr
    · rw [if_neg hv] at hr
      rcases hc : classify_grievance st t with e | c <;> rw [hc] at hr
      · exact absurd hr (by simp [Bind.bind, Except.bind])
      · rcases hs : detect_spam st t with e | s <;> rw [hs] at hr
        · exact absurd hr (by simp [Bind.bind, Except.bind])
        · exact ⟨c, s, rfl, rfl,
            congrArg CombinedAnalysisResponse.category_confidence (Except.ok.inj hr).symm,
            congrArg CombinedAnalysisResponse.spam_confidence (Except.ok.inj hr).symm⟩

/-- C8: every confidence value present in a classification, spam-detection or
combined result lies in `[0,1]`, under the hypothesis that the loaded
predictors' probability outputs have all entries in `[0,1]`. -/
theorem C8_confidence_in_unit_interval (st : ModelsState) (t : String)
    (hG : ∀ clf pp, st.grievance_classifier = some clf → clf.predict_proba = some pp →
      ∀ v, ∀ q ∈ pp v, 0 ≤ q ∧ q ≤ 1)
    (hS : ∀ sm pp, st.spam_detection_model = some sm → sm.predict_proba = some pp →
      ∀ s, ∀ q ∈ pp s, 0 ≤ q ∧ q ≤ 1) :
    (∀ r c, classify_grievance st t = .ok r → r.confidence_score = some c →
      0 ≤ c ∧ c ≤ 1) ∧
    (∀ r c, detect_spam st t = .ok r → r.confidence_score = some c →
      0 ≤ c ∧ c ≤ 1) ∧
    (∀ r, analyze_grievance st t = .ok r →
      (∀ c, r.category_confidence = some c → 0 ≤ c ∧ c ≤ 1) ∧
      (∀ c, r.spam_confidence = some c → 0 ≤ c ∧ c ≤ 1)) := by
  refine ⟨fun r c hr hc => classify_confidence_bound st t r c hG hr hc,
          fun r c hr hc => spam_confidence_bound st t r c hS hr hc,
          fun r hr => ?_⟩
  obtain ⟨cr, sr, hcr, hsr, hcc, hsc⟩ := analyze_ok_decompose st t r hr
  constructor
  · intro c hc
    exact classify_confidence_bound st t cr c hG hcr (hcc ▸ hc)
  · intro c hc
    exact spam_confidence_bound st t sr c hS hsr (hsc ▸ hc)

/-- C8 witness: the bound theorem applied at the loaded fixture state, whose
classifier returns the distribution `[1/2, 1/4]`, at the concrete confidence
`1/2` produced for a valid text. -/
theorem C8_witness : 0 ≤ (1/2 : ℚ) ∧ (1/2 : ℚ) ≤ 1 := by
  have hok : classify_grievance probaState "Street lights are broken near my home" =
      .ok { grievance_category := "Utilities", confidence_score := some (1/2) } := by
    simp only [classify_grievance, probaState, probaClassifier, dummyVectorizer, dummyEncoder]
    rw [if_neg (by decide)]
    norm_num [argmax, argmaxAux, List.getD]
  refine (C8_confidence_in_unit_interval probaState "Street lights are broken near my home"
      ?_ ?_).1 _ _ hok rfl
  · intro clf pp hclf hpp v q hq
    injection hclf with h
    subst h
    injection hpp with h2
    subst h2
    simp at hq
    rcases hq with rfl | rfl <;> norm_num
  · intro sm pp hsm hpp s q hq
    injection hsm with h
    subst h
    exact Option.noConfusion hpp

/-- A hard-label spam model that is sensitive to letter case (it flags texts
whose first character is upper case). -/
def caseSpam : SpamModel :=
  { predict_proba := none, predict := fun s => (s.data.headD 'a').isUpper }

/-- All four globals loaded, with the case-sensitive spam model. -/
def caseState : ModelsState :=
  { grievance_classifier := some dummyClassifier, vectorizer := some dummyVectorizer,
    label_encoder := some dummyEncoder, spam_detection_model := some caseSpam }

/-- C9: grievance classification is case-insensitive — for any two valid
texts equal after lowercasing, `classify_grievance` returns the identical
result against the same state, because the input is lowercased before
vectorization; spam detection applies no such normalization — the raw text
reaches the model, and with a case-sensitive model the two casings of one
text give different results. -/
theorem C9_classify_case_insensitive (clf : Classifier) (vec : Vectorizer)
    (enc : LabelEncoder) (st : ModelsState) (t t2 : String)
    (h1 : st.grievance_classifier = some clf) (h2 : st.vectorizer = some vec)
    (h3 : st.label_encoder = some enc)
    (hcase : pyLower t = pyLower t2)
    (hv : ¬(t = "" ∨ (pyStrip t).length < 5))
    (hv2 : ¬(t2 = "" ∨ (pyStrip t2).length < 5)) :
    classify_grievance st t = classify_grievance st t2 ∧
    detect_spam caseState "WIN A FREE PRIZE NOW" ≠
      detect_spam caseState "win a free prize now" := by
  constructor
  · simp only [classify_grievance, h1, h2, h3]
    rw [if_neg hv, if_neg hv2, hcase]
  · have hA : detect_spam caseState "WIN A FREE PRIZE NOW" =
        .ok { is_spam := true, confidence_score := none } := by
      simp only [detect_spam, caseState, caseSpam]
      rw [if_neg (by decide)]
      rfl
    have hB : detect_spam caseState "win a free prize now" =
        .ok { is_spam := false, confidence_score := none } := by
      simp only [detect_spam, caseState, caseSpam]
      rw [if_neg (by decide)]
      rfl
    rw [hA, hB]
    simp

/-- C9 witness: the theorem at concrete casing variants of one text against
the loaded fixture state. -/
theorem C9_witness :
    classify_grievance caseState "BROKEN STREET LIGHT" =
      classify_grievance caseState "broken street light" ∧
    detect_spam caseState "WIN A FREE PRIZE NOW" ≠
      detect_spam caseState "win a free prize now" :=
  C9_classify_case_insensitive dummyClassifier dummyVectorizer dummyEncoder
    caseState "BROKEN STREET LIGHT" "broken street light" rfl rfl rfl
    (by decide) (by decide) (by decide)

/-- Helper: the page-concatenation loop never shortens its accumulator. -/
lemma extractText_loop_length (pages : List String) (acc : String) :
    acc.length ≤ (List.foldl (fun a p => a ++ p ++ "\n") acc pages).length := by
  induction pages generalizing acc with
  | nil => simp
  | cons p ps ih =>
    calc acc.length ≤ (acc ++ p ++ "\n").length := by
          simp [String.length_append]
          omega
      _ ≤ _ := ih (acc ++ p ++ "\n")

/-- Helper: with at least one page the extracted text is non-empty (each
iteration appends the page text plus a newline). -/
lemma extractText_ne_empty (pages : List String) (h : pages ≠ []) :
    extractText pages ≠ "" := by
  rcases pages with _ | ⟨p, ps⟩
  · exact absurd rfl h
  · intro he
    have hlen : ("" ++ p ++ "\n").length ≤ (extractText (p :: ps)).length :=
      extractText_loop_length ps ("" ++ p ++ "\n")
    rw [he] at hlen
    simp [String.length_append] at hlen
    exact absurd hlen.2 (by decide)

/-- C10: a session created from a document with at least one page stores
non-empty text (a newline is appended per page even for empty pages), so
`ask_question` on that session never returns the EmptyDocument error; the
zero-page document is the only way to store empty text. -/
theorem C10_page_makes_text_nonempty (sessions : SessionMap)
    (filename : String) (pages : List String) (sid : String)
    (hpdf : pyEndsWith filename ".pdf" = true)
    (hpages : pages ≠ []) :
    ∃ (sessions2 : SessionMap) (res : InitRagResult),
      init_rag sessions filename pages sid = .ok (sessions2, res) ∧
      res.pages = pages.length ∧
      lookupSession sessions2 sid = some (extractText pages) ∧
      extractText pages ≠ "" ∧
      (∀ backend query, ask_question sessions2 backend sid query ≠
        .error { status_code := 400,
                 detail := "No PDF content found for this session." }) ∧
      extractText ([] : List String) = "" := by
  have hne := extractText_ne_empty pages hpages
  refine ⟨insertSession sessions sid (extractText pages),
    { message := "PDF processed successfully", pages := pages.length, session_id := sid },
    by simp [init_rag, hpdf], rfl, by simp [lookupSession, insertSession], hne,
    ?_, rfl⟩
  intro backend query hcontra
  have hl : lookupSession (insertSession sessions sid (extractText pages)) sid =
      some (extractText pages) := by
    simp [lookupSession, insertSession]
  simp only [ask_question, hl] at hcontra
  rw [if_neg hne] at hcontra
  split at hcontra
  · simp at hcontra
  · rcases hb : backend.generate_content
        (buildPrompt (extractText pages) query) with e | a <;>
      rw [hb] at hcontra <;> simp at hcontra

/-- C10 witness: a two-page document whose first page extracts no text still
stores non-empty content, and `ask_question` on the created session never
returns the EmptyDocument error. -/
theorem C10_witness :
    ∃ (sessions2 : SessionMap) (res : InitRagResult),
      init_rag ([] : SessionMap) "doc.pdf" ["", "second page"] "sess-9" =
        .ok (sessions2, res) ∧
      res.pages = (["", "second page"] : List String).length ∧
      lookupSession sessions2 "sess-9" = some (extractText ["", "second page"]) ∧
      extractText ["", "second page"] ≠ "" ∧
      (∀ backend query, ask_question sessions2 backend "sess-9" query ≠
        .error { status_code := 400,
                 detail := "No PDF content found for this session." }) ∧
      extractText ([] : List String) = "" :=
  C10_page_makes_text_nonempty ([] : SessionMap) "doc.pdf" ["", "second page"]
    "sess-9" (by decide) (by decide)
